import Mathlib

/-!
Shallow embedding of `src/weapondetection.py`, a single-script Streamlit app
that feeds images, uploaded videos, a webcam, or an IP camera stream to a
pretrained YOLOv8 detector and displays annotated results.

The embedding models the script's own control flow (branch dispatch on the
sidebar radio value, the per-frame video loops, resource acquisition and
release, the save-video blocks) over explicit inputs: the sequence of frame
read results of a capture source is a `List (Option Frame)`, user widget
values are parameters, and the observable effects of a run are a `List Action`
trace.  The external detector (ultralytics YOLO) and the `st.cache_resource`
decorator are not part of the repository; where a claim depends on their
contract they are modelled from the spec, and such definitions say so in
their doc comment.
-/

namespace WeaponDetection

/-- A decoded image or video frame; only its pixel-array shape
(`frame.shape[0]` = height, `frame.shape[1]` = width) is observable to the
script's logic. -/
structure Frame where
  height : Nat
  width : Nat
deriving DecidableEq, Repr

/-- A PIL image behaves like a frame for the purposes of the script
(`image.size[1] x image.size[0]`). -/
abbrev Image := Frame

/-- One detection box as the script consumes it: a class id (`box.cls`) and a
confidence score.  Scores are rationals in the embedding. -/
structure Box where
  cls : Nat
  score : ℚ
deriving DecidableEq, Repr

/-- The YOLO model object as the script uses it: a source of candidate
detections per frame, and the `model.names` class-id-to-label mapping. -/
structure DetModel where
  raw : Frame → List Box
  names : Nat → String

/-- The user-selected sidebar scalars the detection calls consume:
`MIN_SCORE_THRES` (slider, line 27) and `MAX_BOXES_TO_DRAW`
(number input, line 25). -/
structure Config where
  MIN_SCORE_THRES : ℚ
  MAX_BOXES_TO_DRAW : Nat
deriving DecidableEq, Repr

/-- Modelled from the spec: the external YOLO detector call
`model(image, conf=..., max_det=...)`.  Per the spec's glossary, the
confidence threshold is the "minimum score a detection must meet to be
retained", and `max_det` limits the detector to that many detections; the
model itself is external to the repository. -/
def runDetector (raw : List Box) (conf : ℚ) (maxDet : Nat) : List Box :=
  (raw.filter (fun b => conf ≤ b.score)).take maxDet

/-- `process_image` (lines 34-36): calls the model on the image with
`conf=MIN_SCORE_THRES, max_det=MAX_BOXES_TO_DRAW` and returns `results[0]`. -/
def process_image (cfg : Config) (m : DetModel) (image : Image) : List Box :=
  runDetector (m.raw image) cfg.MIN_SCORE_THRES cfg.MAX_BOXES_TO_DRAW

/-- `process_video_frame` (lines 39-41): identical call on a video frame. -/
def process_video_frame (cfg : Config) (m : DetModel) (frame : Frame) : List Box :=
  runDetector (m.raw frame) cfg.MIN_SCORE_THRES cfg.MAX_BOXES_TO_DRAW

/-- The inline detection call of the webcam and IP-camera loops
(lines 146 and 209): `model(frame, conf=MIN_SCORE_THRES,
max_det=MAX_BOXES_TO_DRAW)`. -/
def detectFrame (cfg : Config) (m : DetModel) (frame : Frame) : List Box :=
  runDetector (m.raw frame) cfg.MIN_SCORE_THRES cfg.MAX_BOXES_TO_DRAW

/-- The label-extraction block of the webcam and IP-camera loops
(lines 157-162 and 220-225): slice the detections to the first
`MAX_BOXES_TO_DRAW` entries, then map each box through `model.names`. -/
def detection_text (m : DetModel) (detections : List Box) (maxBoxes : Nat) :
    List String :=
  (detections.take maxBoxes).map (fun box => m.names box.cls)

/-- The values the sidebar radio of line 22 can yield:
`("Upload Image", "Upload Video", "Livecam Detection")`. -/
def radioOptions : List String :=
  ["Upload Image", "Upload Video", "Livecam Detection"]

/-- Which handler body a chain of the script selects for a given `option`. -/
inductive Handler where
  | uploadImage
  | uploadVideo
  | webcam
  | ipCamera
  | fallbackMessage
  | noBranch
deriving DecidableEq, Repr

/-- The first `if/elif` chain (lines 60 and 73): static-image and
uploaded-video handlers; no `else` arm. -/
def firstChain (opt : String) : Handler :=
  if opt = "Upload Image" then .uploadImage
  else if opt = "Upload Video" then .uploadVideo
  else .noBranch

/-- The second `if/elif/else` chain (lines 124, 187, 250): webcam and
IP-camera handlers, with the fallback message branch. -/
def secondChain (opt : String) : Handler :=
  if opt = "Webcam Detection" then .webcam
  else if opt = "IP Camera Detection" then .ipCamera
  else .fallbackMessage

/-- The message the `else` branch of line 251 displays. -/
def fallbackMessageText : String :=
  "Select 'Webcam Detection' or 'IP Camera Detection' to start."

/-- A constructed `YOLO` model object: the weights path it was loaded from,
plus an instance id distinguishing separately constructed objects. -/
structure YOLOModel where
  id : Nat
  weights : String
deriving DecidableEq, Repr

/-- The process-lifetime resource cache of `st.cache_resource`: the cached
model, if any, and a counter supplying fresh instance ids. -/
structure CacheState where
  cached : Option YOLOModel
  nextId : Nat
deriving DecidableEq, Repr

/-- Modelled from the spec: the `@st.cache_resource` decorator on
`load_model` (lines 11-13) is external Streamlit machinery; per the spec it
"loads a pretrained detector once, cached for the process lifetime".  The
cache is explicit state: a call returns the cached instance when one exists,
else constructs a fresh `YOLO("weights/best.pt")` and stores it. -/
def load_model (s : CacheState) : YOLOModel × CacheState :=
  match s.cached with
  | some m => (m, s)
  | none =>
      let m : YOLOModel := ⟨s.nextId, "weights/best.pt"⟩
      (m, ⟨some m, s.nextId + 1⟩)

/-- The observable effects of a run of a handler branch, in program order. -/
inductive Action where
  | writeTempFile
  | stVideo
  | readFrame (ok : Bool)
  | inferFrame (dets : List Box)
  | displaySnapshot
  | displayFrame
  | frameInfo (count : Nat) (labels : List String)
  | warn (msg : String)
  | downloadButton
  | releaseCapture
  | unlinkTempFile
  | openWriter (path : String) (fourcc : String) (fps : Nat)
      (width : Nat) (height : Nat)
  | writeFrame (f : Frame)
  | releaseWriter
  | success (path : String)
deriving DecidableEq, Repr

/-- Whether an action is a `st.warning` display. -/
def Action.isWarn : Action → Bool
  | .warn _ => true
  | _ => false

/-- Whether an action is a capture-read. -/
def Action.isRead : Action → Bool
  | .readFrame _ => true
  | _ => false

/-- The `while cap.isOpened()` loop of the uploaded-video branch
(lines 97-114).  `events` lists the successive `cap.read()` outcomes while
the capture reports open; an exhausted list is `cap.isOpened()` turning
false.  `snaps` abstracts the wall-clock snapshot condition of line 106
(button pressed or auto-snapshot interval elapsed) per iteration.  On a
failed read the loop breaks with no further action (lines 99-100 have no
warning). -/
def uploadVideoLoop (cfg : Config) (m : DetModel) (snaps : Nat → Bool) :
    List (Option Frame) → List Action
  | [] => []
  | Option.none :: _ => [Action.readFrame false]
  | some frame :: rest =>
      let result := process_video_frame cfg m frame
      Action.readFrame true ::
        Action.inferFrame result ::
        ((if snaps 0 then [Action.displaySnapshot] else []) ++
          (Action.frameInfo result.length (result.map (fun b => m.names b.cls)) ::
            uploadVideoLoop cfg m (fun i => snaps (i + 1)) rest))

/-- The `st.warning` message of line 142. -/
def webcamWarnMsg : String :=
  "Failed to read from the webcam. Check if it's connected."

/-- The `st.warning` message of line 205. -/
def ipCameraWarnMsg : String :=
  "Failed to read from the IP Camera. Check if the URL is correct."

/-- The `while cap.isOpened()` loop of the webcam branch (lines 139-173):
read; on failure warn and break; else detect, plot and append to
`processed_frames` (plotting preserves the frame's shape), extract the
sliced labels, update the video placeholder and write the frame info line.
Returns the accumulated `processed_frames` and the action trace. -/
def webcamLoop (cfg : Config) (m : DetModel) :
    List (Option Frame) → List Frame × List Action
  | [] => ([], [])
  | Option.none :: _ =>
      ([], [Action.readFrame false, Action.warn webcamWarnMsg])
  | some frame :: rest =>
      let results0 := detectFrame cfg m frame
      let labels := detection_text m results0 cfg.MAX_BOXES_TO_DRAW
      let r := webcamLoop cfg m rest
      (frame :: r.1,
       Action.readFrame true ::
         Action.inferFrame results0 ::
         Action.displayFrame ::
         Action.frameInfo labels.length labels ::
         r.2)

/-- The `while cap.isOpened()` loop of the IP-camera branch
(lines 202-236), identical to the webcam loop apart from the warning
message and caption. -/
def ipCameraLoop (cfg : Config) (m : DetModel) :
    List (Option Frame) → List Frame × List Action
  | [] => ([], [])
  | Option.none :: _ =>
      ([], [Action.readFrame false, Action.warn ipCameraWarnMsg])
  | some frame :: rest =>
      let results0 := detectFrame cfg m frame
      let labels := detection_text m results0 cfg.MAX_BOXES_TO_DRAW
      let r := ipCameraLoop cfg m rest
      (frame :: r.1,
       Action.readFrame true ::
         Action.inferFrame results0 ::
         Action.displayFrame ::
         Action.frameInfo labels.length labels ::
         r.2)

/-- The save-video block shared verbatim by the webcam branch
(lines 178-185) and the IP-camera branch (lines 241-248):
`if save_option == "Yes" and processed_frames:` open a
`cv2.VideoWriter(path, fourcc('mp4v'), 20, (frames[0].shape[1],
frames[0].shape[0]))`, write every processed frame, release, report
success.  Indexing `processed_frames[0]` on an empty list would raise in
Python; the embedding returns `Option.none` for that impossible path. -/
def saveBlock (saveOption : String) (path : String) (frames : List Frame) :
    Option (List Action) :=
  if saveOption = "Yes" && !frames.isEmpty then
    match frames.head? with
    | some f =>
        some (Action.openWriter path "mp4v" 20 f.width f.height ::
          (frames.map Action.writeFrame ++
            [Action.releaseWriter, Action.success path]))
    | Option.none => Option.none
  else some []

/-- The static-image branch body (lines 60-70): open the uploaded image,
`process_image`, `display_results`, and under `save_option == "Yes"` show
the annotated image in the sidebar with a download button. -/
def uploadImageHandler (cfg : Config) (m : DetModel) (uploaded : Option Image)
    (saveOption : String) : List Action :=
  match uploaded with
  | Option.none => []
  | some image =>
      let result := process_image cfg m image
      Action.inferFrame result ::
        Action.displayFrame ::
        (if saveOption = "Yes" then [Action.downloadButton] else [])

/-- The uploaded-video branch body (lines 73-117): write the uploaded bytes
to a temporary file, `st.video` it, open a capture on it, run the per-frame
loop, then `cap.release()` and `os.unlink(tfile.name)`. -/
def uploadVideoHandler (cfg : Config) (m : DetModel) (uploaded : Bool)
    (snaps : Nat → Bool) (events : List (Option Frame)) : List Action :=
  if uploaded then
    Action.writeTempFile ::
      Action.stVideo ::
      (uploadVideoLoop cfg m snaps events ++
        [Action.releaseCapture, Action.unlinkTempFile])
  else []

/-- The webcam branch body (lines 124-185): under the start button, open
`cv2.VideoCapture(0)`, run the loop, `cap.release()`, then the save-video
block (whose `save_option` is the inner sidebar radio of line 178). -/
def webcamHandler (cfg : Config) (m : DetModel) (startButton : Bool)
    (events : List (Option Frame)) (saveOption : String) (path : String) :
    Option (List Action) :=
  if startButton then
    let r := webcamLoop cfg m events
    (saveBlock saveOption path r.1).map
      (fun sv => r.2 ++ (Action.releaseCapture :: sv))
  else some []

/-- The IP-camera branch body (lines 187-248): under the start button and a
non-empty URL, open `cv2.VideoCapture(ip_url)`, run the loop,
`cap.release()`, then the save-video block. -/
def ipCameraHandler (cfg : Config) (m : DetModel) (startButton : Bool)
    (ipUrl : String) (events : List (Option Frame)) (saveOption : String)
    (path : String) : Option (List Action) :=
  if startButton && ipUrl != "" then
    let r := ipCameraLoop cfg m events
    (saveBlock saveOption path r.1).map
      (fun sv => r.2 ++ (Action.releaseCapture :: sv))
  else some []

/-- The frames of the longest prefix of successful reads. -/
def takeWhileSome : List (Option Frame) → List Frame
  | [] => []
  | Option.none :: _ => []
  | some f :: rest => f :: takeWhileSome rest

/-- The reads a `while cap.isOpened()` loop is expected to perform on a
source: one successful read per frame of the successful prefix, then either
nothing (source exhausted, `isOpened` false) or exactly one failed read. -/
def readsOf : List (Option Frame) → List Action
  | [] => []
  | Option.none :: _ => [Action.readFrame false]
  | some _ :: rest => Action.readFrame true :: readsOf rest

/-- How many times an action occurs in a trace. -/
def countAction (a : Action) (tr : List Action) : Nat :=
  (tr.filter (fun b => b == a)).length

/-- The actions the uploaded-video loop body can emit. -/
def Action.isUploadLoopBody : Action → Bool
  | .readFrame _ => true
  | .inferFrame _ => true
  | .displaySnapshot => true
  | .frameInfo _ _ => true
  | _ => false

/-- The actions the webcam / IP-camera loop bodies can emit. -/
def Action.isCameraLoopBody : Action → Bool
  | .readFrame _ => true
  | .inferFrame _ => true
  | .displayFrame => true
  | .frameInfo _ _ => true
  | .warn _ => true
  | _ => false

/-- The actions the save-video block can emit. -/
def Action.isSaveBody : Action → Bool
  | .openWriter _ _ _ _ _ => true
  | .writeFrame _ => true
  | .releaseWriter => true
  | .success _ => true
  | _ => false

/-- A concrete 640x480 frame for sample runs. -/
def frame0 : Frame := ⟨480, 640⟩

/-- A concrete detection box of class 0 with score 1. -/
def box0 : Box := ⟨0, 1⟩

/-- A concrete configuration: threshold 0, at most 5 boxes. -/
def cfg0 : Config := ⟨0, 5⟩

/-- A concrete model: one candidate box per frame, every class named Gun. -/
def model0 : DetModel := ⟨fun _ => [box0], fun _ => "Gun"⟩

/-- A snapshot condition that never fires. -/
def snapsNever : Nat → Bool := fun _ => false

/-! ### Helper lemmas -/

lemma saveBlock_nil (saveOption path : String) :
    saveBlock saveOption path [] = some [] := by
  simp [saveBlock]

lemma saveBlock_cons_yes (path : String) (f : Frame) (fs : List Frame) :
    saveBlock "Yes" path (f :: fs) =
      some (Action.openWriter path "mp4v" 20 f.width f.height ::
        ((f :: fs).map Action.writeFrame ++
          [Action.releaseWriter, Action.success path])) := by
  simp [saveBlock]

lemma saveBlock_isSome (saveOption path : String) (fs : List Frame) :
    (saveBlock saveOption path fs).isSome = true := by
  rcases fs with _ | ⟨f, fs⟩
  · simp [saveBlock]
  · by_cases h : saveOption = "Yes"
    · subst h
      simp [saveBlock]
    · simp [saveBlock, h]

lemma webcamLoop_frames (cfg : Config) (m : DetModel) :
    ∀ evs, (webcamLoop cfg m evs).1 = takeWhileSome evs
  | [] => rfl
  | Option.none :: _ => rfl
  | some f :: rest => by
      simp [webcamLoop, takeWhileSome, webcamLoop_frames cfg m rest]

lemma ipCameraLoop_frames (cfg : Config) (m : DetModel) :
    ∀ evs, (ipCameraLoop cfg m evs).1 = takeWhileSome evs
  | [] => rfl
  | Option.none :: _ => rfl
  | some f :: rest => by
      simp [ipCameraLoop, takeWhileSome, ipCameraLoop_frames cfg m rest]

lemma takeWhileSome_map_some : ∀ fs : List Frame, takeWhileSome (fs.map some) = fs
  | [] => rfl
  | f :: rest => by simp [takeWhileSome, takeWhileSome_map_some rest]

lemma runDetector_score (raw : List Box) (conf : ℚ) (maxDet : Nat) :
    ∀ b ∈ runDetector raw conf maxDet, conf ≤ b.score := by
  intro b hb
  have hb2 : b ∈ raw.filter (fun x => decide (conf ≤ x.score)) :=
    List.mem_of_mem_take hb
  exact of_decide_eq_true (List.mem_filter.mp hb2).2

lemma runDetector_length (raw : List Box) (conf : ℚ) (maxDet : Nat) :
    (runDetector raw conf maxDet).length ≤ maxDet := by
  exact List.length_take_le _ _

lemma uploadVideoLoop_break (cfg : Config) (m : DetModel) :
    ∀ (fs : List Frame) (snaps : Nat → Bool) (rest : List (Option Frame)),
      uploadVideoLoop cfg m snaps (fs.map some ++ Option.none :: rest) =
        uploadVideoLoop cfg m snaps (fs.map some) ++ [Action.readFrame false]
  | [], snaps, rest => by simp [uploadVideoLoop]
  | f :: fs, snaps, rest => by
      simp [uploadVideoLoop,
        uploadVideoLoop_break cfg m fs (fun i => snaps (i + 1)) rest]

lemma webcamLoop_break (cfg : Config) (m : DetModel) :
    ∀ (fs : List Frame) (rest : List (Option Frame)),
      (webcamLoop cfg m (fs.map some ++ Option.none :: rest)).2 =
        (webcamLoop cfg m (fs.map some)).2 ++
          [Action.readFrame false, Action.warn webcamWarnMsg]
  | [], rest => by simp [webcamLoop]
  | f :: fs, rest => by
      simp [webcamLoop, webcamLoop_break cfg m fs rest]

lemma ipCameraLoop_break (cfg : Config) (m : DetModel) :
    ∀ (fs : List Frame) (rest : List (Option Frame)),
      (ipCameraLoop cfg m (fs.map some ++ Option.none :: rest)).2 =
        (ipCameraLoop cfg m (fs.map some)).2 ++
          [Action.readFrame false, Action.warn ipCameraWarnMsg]
  | [], rest => by simp [ipCameraLoop]
  | f :: fs, rest => by
      simp [ipCameraLoop, ipCameraLoop_break cfg m fs rest]

lemma uploadVideoLoop_all_body (cfg : Config) (m : DetModel) :
    ∀ (evs : List (Option Frame)) (snaps : Nat → Bool),
      (uploadVideoLoop cfg m snaps evs).all Action.isUploadLoopBody = true
  | [], _ => rfl
  | Option.none :: _, _ => rfl
  | some f :: rest, snaps => by
      have ih := uploadVideoLoop_all_body cfg m rest (fun i => snaps (i + 1))
      by_cases h : snaps 0 <;>
        simp [uploadVideoLoop, h, Action.isUploadLoopBody, ih]

lemma webcamLoop_all_body (cfg : Config) (m : DetModel) :
    ∀ evs : List (Option Frame),
      ((webcamLoop cfg m evs).2).all Action.isCameraLoopBody = true
  | [] => rfl
  | Option.none :: _ => rfl
  | some f :: rest => by
      simp [webcamLoop, Action.isCameraLoopBody,
        webcamLoop_all_body cfg m rest]

lemma ipCameraLoop_all_body (cfg : Config) (m : DetModel) :
    ∀ evs : List (Option Frame),
      ((ipCameraLoop cfg m evs).2).all Action.isCameraLoopBody = true
  | [] => rfl
  | Option.none :: _ => rfl
  | some f :: rest => by
      simp [ipCameraLoop, Action.isCameraLoopBody,
        ipCameraLoop_all_body cfg m rest]

lemma saveBlock_all_body (saveOption path : String) (fs : List Frame) :
    ((saveBlock saveOption path fs).getD []).all Action.isSaveBody = true := by
  rcases fs with _ | ⟨f, fs⟩
  · simp [saveBlock]
  · by_cases h : saveOption = "Yes"
    · subst h
      simp [saveBlock, Action.isSaveBody, List.all_map, Function.comp]
    · simp [saveBlock, h]

lemma all_mono {p q : Action → Bool} (hpq : ∀ a, p a = true → q a = true) :
    ∀ {l : List Action}, l.all p = true → l.all q = true
  | [], _ => rfl
  | a :: l, h => by
      rw [List.all_cons, Bool.and_eq_true] at h ⊢
      exact ⟨hpq a h.1, all_mono hpq h.2⟩

lemma countAction_append (x : Action) (l₁ l₂ : List Action) :
    countAction x (l₁ ++ l₂) = countAction x l₁ + countAction x l₂ := by
  simp [countAction, List.filter_append]

lemma countAction_cons_self (x : Action) (l : List Action) :
    countAction x (x :: l) = countAction x l + 1 := by
  simp [countAction, List.filter_cons]

lemma countAction_cons_ne (x a : Action) (l : List Action)
    (h : (a == x) = false) :
    countAction x (a :: l) = countAction x l := by
  simp [countAction, List.filter_cons, h]

lemma countAction_eq_zero_of_all {p : Action → Bool} {x : Action}
    (hx : p x = false) :
    ∀ {l : List Action}, l.all p = true → countAction x l = 0
  | [], _ => rfl
  | a :: l, h => by
      rw [List.all_cons, Bool.and_eq_true] at h
      have hax : (a == x) = false := by
        apply Bool.eq_false_iff.mpr
        intro hc
        have hpx : p x = true := eq_of_beq hc ▸ h.1
        rw [hx] at hpx
        exact Bool.false_ne_true hpx
      rw [countAction_cons_ne x a l hax]
      exact countAction_eq_zero_of_all hx h.2

lemma uploadVideoLoop_reads (cfg : Config) (m : DetModel) :
    ∀ (evs : List (Option Frame)) (snaps : Nat → Bool),
      (uploadVideoLoop cfg m snaps evs).filter Action.isRead = readsOf evs
  | [], _ => rfl
  | Option.none :: _, _ => rfl
  | some f :: rest, snaps => by
      have ih := uploadVideoLoop_reads cfg m rest (fun i => snaps (i + 1))
      by_cases h : snaps 0 <;>
        simp [uploadVideoLoop, readsOf, List.filter_append, List.filter_cons,
          Action.isRead, h, ih]

lemma webcamLoop_reads (cfg : Config) (m : DetModel) :
    ∀ evs : List (Option Frame),
      ((webcamLoop cfg m evs).2).filter Action.isRead = readsOf evs
  | [] => rfl
  | Option.none :: _ => rfl
  | some f :: rest => by
      simp [webcamLoop, readsOf, List.filter_cons, Action.isRead,
        webcamLoop_reads cfg m rest]

lemma ipCameraLoop_reads (cfg : Config) (m : DetModel) :
    ∀ evs : List (Option Frame),
      ((ipCameraLoop cfg m evs).2).filter Action.isRead = readsOf evs
  | [] => rfl
  | Option.none :: _ => rfl
  | some f :: rest => by
      simp [ipCameraLoop, readsOf, List.filter_cons, Action.isRead,
        ipCameraLoop_reads cfg m rest]

lemma readsOf_map_some_append_none (fs : List Frame)
    (rest : List (Option Frame)) :
    readsOf (fs.map some ++ Option.none :: rest) =
      fs.map (fun _ => Action.readFrame true) ++ [Action.readFrame false] := by
  induction fs with
  | nil => rfl
  | cons f fs ih => simp [readsOf, ih]

lemma detection_text_length_le (m : DetModel) (dets : List Box) (maxB : Nat) :
    (detection_text m dets maxB).length ≤ maxB := by
  rw [detection_text, List.length_map]
  exact List.length_take_le _ _

lemma webcamLoop_frameInfo_bound (cfg : Config) (m : DetModel) :
    ∀ (evs : List (Option Frame)) (c : Nat) (ls : List String),
      Action.frameInfo c ls ∈ (webcamLoop cfg m evs).2 →
        c ≤ cfg.MAX_BOXES_TO_DRAW
  | [], c, ls, h => by simp [webcamLoop] at h
  | Option.none :: _, c, ls, h => by simp [webcamLoop] at h
  | some f :: rest, c, ls, h => by
      simp only [webcamLoop, List.mem_cons] at h
      rcases h with h | h | h | h | h
      · exact absurd h (by simp)
      · exact absurd h (by simp)
      · exact absurd h (by simp)
      · obtain ⟨hc, -⟩ := Action.frameInfo.inj h
        rw [hc]
        exact detection_text_length_le m _ _
      · exact webcamLoop_frameInfo_bound cfg m rest c ls h

lemma ipCameraLoop_frameInfo_bound (cfg : Config) (m : DetModel) :
    ∀ (evs : List (Option Frame)) (c : Nat) (ls : List String),
      Action.frameInfo c ls ∈ (ipCameraLoop cfg m evs).2 →
        c ≤ cfg.MAX_BOXES_TO_DRAW
  | [], c, ls, h => by simp [ipCameraLoop] at h
  | Option.none :: _, c, ls, h => by simp [ipCameraLoop] at h
  | some f :: rest, c, ls, h => by
      simp only [ipCameraLoop, List.mem_cons] at h
      rcases h with h | h | h | h | h
      · exact absurd h (by simp)
      · exact absurd h (by simp)
      · exact absurd h (by simp)
      · obtain ⟨hc, -⟩ := Action.frameInfo.inj h
        rw [hc]
        exact detection_text_length_le m _ _
      · exact ipCameraLoop_frameInfo_bound cfg m rest c ls h

/-! ### Claim theorems -/

/-- Claim C6: the pretrained detector is loaded once per process; with the
resource cache made explicit, every `load_model` call after the first
returns the same cached model instance and leaves the cache unchanged. -/
theorem c6_load_model_cached_once (s : CacheState) :
    load_model (load_model s).2 = ((load_model s).1, (load_model s).2) ∧
    ((load_model s).2).cached = some (load_model s).1 := by
  obtain ⟨c, n⟩ := s
  cases c <;> simp [load_model]

/-- Claim C8: every value the input-type radio can yield fails both camera
guards, so the second chain always reaches its fallback branch; in
particular selecting Livecam Detection selects no handler in the first
chain and only the fallback message in the second. -/
theorem c8_camera_guards_never_fire (opt : String) (h : opt ∈ radioOptions) :
    secondChain opt = Handler.fallbackMessage ∧
    firstChain "Livecam Detection" = Handler.noBranch ∧
    secondChain "Livecam Detection" = Handler.fallbackMessage := by
  simp only [radioOptions, List.mem_cons, List.not_mem_nil, or_false] at h
  rcases h with rfl | rfl | rfl <;> exact ⟨by decide, by decide, by decide⟩

/-- Witness for C8 at the concrete selection Livecam Detection. -/
theorem c8_camera_guards_never_fire_witness :
    secondChain "Livecam Detection" = Handler.fallbackMessage ∧
    firstChain "Livecam Detection" = Handler.noBranch ∧
    secondChain "Livecam Detection" = Handler.fallbackMessage :=
  c8_camera_guards_never_fire "Livecam Detection" (by decide)

/-- Claim C1 (code bug, evaluated at the failing input): the radio of
line 22 cannot produce the strings the webcam / IP-camera guards test, so
no selectable input type ever runs those handlers; Livecam Detection
reaches only the fallback message. -/
theorem c1_camera_handlers_unreachable :
    radioOptions.all
      (fun opt => decide (secondChain opt = Handler.fallbackMessage)) = true ∧
    radioOptions.contains "Webcam Detection" = false ∧
    radioOptions.contains "IP Camera Detection" = false ∧
    firstChain "Livecam Detection" = Handler.noBranch ∧
    secondChain "Livecam Detection" = Handler.fallbackMessage := by
  decide

/-- Claim C10: the save-video block never indexes an empty frame list (its
embedding never hits the raising path), and an empty run writes no video
file; consequently the camera handlers always produce a trace. -/
theorem c10_empty_run_writes_nothing (cfg : Config) (m : DetModel) (sb : Bool)
    (evs : List (Option Frame)) (saveOption path ipUrl : String)
    (fs : List Frame) :
    (saveBlock saveOption path fs).isSome = true ∧
    saveBlock saveOption path [] = some [] ∧
    (webcamHandler cfg m sb evs saveOption path).isSome = true ∧
    (ipCameraHandler cfg m sb ipUrl evs saveOption path).isSome = true := by
  refine ⟨saveBlock_isSome _ _ _, saveBlock_nil _ _, ?_, ?_⟩
  · unfold webcamHandler
    split
    · simp [saveBlock_isSome]
    · rfl
  · unfold ipCameraHandler
    split
    · simp [saveBlock_isSome]
    · rfl

/-- Claim C4: every detection call passes the user-selected confidence
threshold and maximum-boxes values unchanged as `conf` and `max_det`, so
every retained detection scores at least `MIN_SCORE_THRES` and at most
`MAX_BOXES_TO_DRAW` detections are returned. -/
theorem c4_scalars_passed_unchanged (cfg : Config) (m : DetModel)
    (img : Image) (frame : Frame) :
    process_image cfg m img =
      runDetector (m.raw img) cfg.MIN_SCORE_THRES cfg.MAX_BOXES_TO_DRAW ∧
    process_video_frame cfg m frame =
      runDetector (m.raw frame) cfg.MIN_SCORE_THRES cfg.MAX_BOXES_TO_DRAW ∧
    detectFrame cfg m frame =
      runDetector (m.raw frame) cfg.MIN_SCORE_THRES cfg.MAX_BOXES_TO_DRAW ∧
    (∀ b ∈ process_image cfg m img, cfg.MIN_SCORE_THRES ≤ b.score) ∧
    (process_image cfg m img).length ≤ cfg.MAX_BOXES_TO_DRAW ∧
    (∀ b ∈ detectFrame cfg m frame, cfg.MIN_SCORE_THRES ≤ b.score) ∧
    (detectFrame cfg m frame).length ≤ cfg.MAX_BOXES_TO_DRAW :=
  ⟨rfl, rfl, rfl, runDetector_score _ _ _, runDetector_length _ _ _,
   runDetector_score _ _ _, runDetector_length _ _ _⟩

/-- Witness for C4 at a concrete configuration, model and frame. -/
theorem c4_scalars_passed_unchanged_witness :
    cfg0.MIN_SCORE_THRES ≤ box0.score ∧
    (process_image cfg0 model0 frame0).length ≤ cfg0.MAX_BOXES_TO_DRAW :=
  ⟨(c4_scalars_passed_unchanged cfg0 model0 frame0 frame0).2.2.2.1 box0
      (by decide),
   (c4_scalars_passed_unchanged cfg0 model0 frame0 frame0).2.2.2.2.1⟩

/-- Claim C2 counterexample: in the uploaded-video loop a failed frame read
breaks the loop without displaying any warning (lines 99-100 only `break`),
so the claim that every per-frame loop warns on a failed read is false. -/
theorem c2_upload_loop_no_warning_counterexample :
    uploadVideoLoop cfg0 model0 snapsNever [Option.none] =
      [Action.readFrame false] ∧
    (uploadVideoLoop cfg0 model0 snapsNever [Option.none]).all
      (fun a => !a.isWarn) = true :=
  ⟨rfl, rfl⟩

/-- Claim C2 (amended): in the webcam and IP-camera loops a failed frame
read displays a warning and breaks out of the loop; in the uploaded-video
loop a failed read breaks out of the loop without displaying a warning. -/
theorem c2_read_failure_warns_and_breaks (cfg : Config) (m : DetModel)
    (snaps : Nat → Bool) (fs : List Frame) (rest : List (Option Frame)) :
    (webcamLoop cfg m (fs.map some ++ Option.none :: rest)).2 =
      (webcamLoop cfg m (fs.map some)).2 ++
        [Action.readFrame false, Action.warn webcamWarnMsg] ∧
    (ipCameraLoop cfg m (fs.map some ++ Option.none :: rest)).2 =
      (ipCameraLoop cfg m (fs.map some)).2 ++
        [Action.readFrame false, Action.warn ipCameraWarnMsg] ∧
    uploadVideoLoop cfg m snaps (fs.map some ++ Option.none :: rest) =
      uploadVideoLoop cfg m snaps (fs.map some) ++ [Action.readFrame false] ∧
    (uploadVideoLoop cfg m snaps (fs.map some ++ Option.none :: rest)).all
      (fun a => !a.isWarn) = true := by
  refine ⟨webcamLoop_break cfg m fs rest, ipCameraLoop_break cfg m fs rest,
    uploadVideoLoop_break cfg m fs snaps rest, ?_⟩
  rw [uploadVideoLoop_break cfg m fs snaps rest, List.all_append]
  have h1 : (uploadVideoLoop cfg m snaps (fs.map some)).all
      (fun a => !a.isWarn) = true := by
    refine all_mono (fun a ha => ?_) (uploadVideoLoop_all_body cfg m _ snaps)
    cases a <;> simp_all [Action.isUploadLoopBody, Action.isWarn]
  rw [h1]
  rfl

/-- Claim C5: each per-frame loop exits only when the capture stops
reporting open or a read fails: the processed frames are exactly the
longest successful-read prefix of the source, the reads performed are one
per frame of that prefix plus at most one failed read, and a source whose
reads all succeed is consumed to exhaustion. -/
theorem c5_loops_exit_only_on_close_or_read_failure (cfg : Config)
    (m : DetModel) (snaps : Nat → Bool) (evs : List (Option Frame))
    (fs : List Frame) (rest : List (Option Frame)) :
    (webcamLoop cfg m evs).1 = takeWhileSome evs ∧
    (ipCameraLoop cfg m evs).1 = takeWhileSome evs ∧
    ((webcamLoop cfg m evs).2).filter Action.isRead = readsOf evs ∧
    ((ipCameraLoop cfg m evs).2).filter Action.isRead = readsOf evs ∧
    (uploadVideoLoop cfg m snaps evs).filter Action.isRead = readsOf evs ∧
    takeWhileSome (fs.map some) = fs ∧
    readsOf (fs.map some ++ Option.none :: rest) =
      fs.map (fun _ => Action.readFrame true) ++ [Action.readFrame false] :=
  ⟨webcamLoop_frames cfg m evs, ipCameraLoop_frames cfg m evs,
   webcamLoop_reads cfg m evs, ipCameraLoop_reads cfg m evs,
   uploadVideoLoop_reads cfg m evs snaps,
   takeWhileSome_map_some fs, readsOf_map_some_append_none fs rest⟩

/-- Claim C3: the uploaded-video handler writes the temporary file first and
ends by releasing the capture and unlinking the temporary file, each exactly
once and after the whole loop; the webcam and IP-camera handlers release
their capture exactly once, right after their loop and before the save
block. -/
theorem c3_capture_released_tempfile_deleted (cfg : Config) (m : DetModel)
    (snaps : Nat → Bool) (evs : List (Option Frame))
    (saveOption path ipUrl : String) (h : ipUrl ≠ "") :
    uploadVideoHandler cfg m true snaps evs =
      Action.writeTempFile :: Action.stVideo ::
        (uploadVideoLoop cfg m snaps evs ++
          [Action.releaseCapture, Action.unlinkTempFile]) ∧
    countAction Action.releaseCapture
      (uploadVideoHandler cfg m true snaps evs) = 1 ∧
    countAction Action.unlinkTempFile
      (uploadVideoHandler cfg m true snaps evs) = 1 ∧
    (uploadVideoHandler cfg m true snaps evs).getLast? =
      some Action.unlinkTempFile ∧
    webcamHandler cfg m true evs saveOption path =
      some ((webcamLoop cfg m evs).2 ++ Action.releaseCapture ::
        (saveBlock saveOption path (webcamLoop cfg m evs).1).getD []) ∧
    countAction Action.releaseCapture
      ((webcamHandler cfg m true evs saveOption path).getD []) = 1 ∧
    ipCameraHandler cfg m true ipUrl evs saveOption path =
      some ((ipCameraLoop cfg m evs).2 ++ Action.releaseCapture ::
        (saveBlock saveOption path (ipCameraLoop cfg m evs).1).getD []) ∧
    countAction Action.releaseCapture
      ((ipCameraHandler cfg m true ipUrl evs saveOption path).getD []) = 1 := by
  have hnoRelUp : countAction Action.releaseCapture
      (uploadVideoLoop cfg m snaps evs) = 0 :=
    countAction_eq_zero_of_all rfl (uploadVideoLoop_all_body cfg m evs snaps)
  have hnoUnlUp : countAction Action.unlinkTempFile
      (uploadVideoLoop cfg m snaps evs) = 0 :=
    countAction_eq_zero_of_all rfl (uploadVideoLoop_all_body cfg m evs snaps)
  have hupl : uploadVideoHandler cfg m true snaps evs =
      Action.writeTempFile :: Action.stVideo ::
        (uploadVideoLoop cfg m snaps evs ++
          [Action.releaseCapture, Action.unlinkTempFile]) := rfl
  obtain ⟨svw, hsvw⟩ := Option.isSome_iff_exists.mp
    (saveBlock_isSome saveOption path (webcamLoop cfg m evs).1)
  obtain ⟨svi, hsvi⟩ := Option.isSome_iff_exists.mp
    (saveBlock_isSome saveOption path (ipCameraLoop cfg m evs).1)
  have hweb : webcamHandler cfg m true evs saveOption path =
      some ((webcamLoop cfg m evs).2 ++ Action.releaseCapture ::
        (saveBlock saveOption path (webcamLoop cfg m evs).1).getD []) := by
    simp [webcamHandler, hsvw]
  have hip : ipCameraHandler cfg m true ipUrl evs saveOption path =
      some ((ipCameraLoop cfg m evs).2 ++ Action.releaseCapture ::
        (saveBlock saveOption path (ipCameraLoop cfg m evs).1).getD []) := by
    have hu : (ipUrl != "") = true := by
      simpa using h
    simp [ipCameraHandler, hu, hsvi]
  have hsvwAll : ((saveBlock saveOption path (webcamLoop cfg m evs).1).getD
      []).all Action.isSaveBody = true := saveBlock_all_body _ _ _
  have hsviAll : ((saveBlock saveOption path (ipCameraLoop cfg m evs).1).getD
      []).all Action.isSaveBody = true := saveBlock_all_body _ _ _
  refine ⟨hupl, ?_, ?_, ?_, hweb, ?_, hip, ?_⟩
  · rw [hupl,
      countAction_cons_ne Action.releaseCapture Action.writeTempFile _ rfl,
      countAction_cons_ne Action.releaseCapture Action.stVideo _ rfl,
      countAction_append, hnoRelUp, countAction_cons_self,
      countAction_cons_ne Action.releaseCapture Action.unlinkTempFile _ rfl]
    rfl
  · rw [hupl,
      countAction_cons_ne Action.unlinkTempFile Action.writeTempFile _ rfl,
      countAction_cons_ne Action.unlinkTempFile Action.stVideo _ rfl,
      countAction_append, hnoUnlUp,
      countAction_cons_ne Action.unlinkTempFile Action.releaseCapture _ rfl,
      countAction_cons_self]
    rfl
  · rw [hupl]
    rw [show Action.writeTempFile :: Action.stVideo ::
        (uploadVideoLoop cfg m snaps evs ++
          [Action.releaseCapture, Action.unlinkTempFile]) =
      (Action.writeTempFile :: Action.stVideo ::
        (uploadVideoLoop cfg m snaps evs ++ [Action.releaseCapture])) ++
        [Action.unlinkTempFile] by simp]
    rw [List.getLast?_concat]
  · rw [hweb, Option.getD_some, countAction_append,
      countAction_eq_zero_of_all rfl (webcamLoop_all_body cfg m evs),
      countAction_cons_self,
      countAction_eq_zero_of_all rfl hsvwAll]
  · rw [hip, Option.getD_some, countAction_append,
      countAction_eq_zero_of_all rfl (ipCameraLoop_all_body cfg m evs),
      countAction_cons_self,
      countAction_eq_zero_of_all rfl hsviAll]

/-- Witness for C3 at a concrete run. -/
theorem c3_capture_released_tempfile_deleted_witness :
    (uploadVideoHandler cfg0 model0 true snapsNever []).getLast? =
      some Action.unlinkTempFile :=
  (c3_capture_released_tempfile_deleted cfg0 model0 snapsNever [] "No"
      "result.mp4" "rtsp://cam" (by decide)).2.2.2.1

/-- Claim C7: when the user chooses to save and at least one frame was
processed, the save block opens a `cv2.VideoWriter` with fourcc mp4v at
20 frames per second sized to the first processed frame and writes every
processed frame in order; the webcam and IP-camera handlers do exactly this
after releasing the capture. -/
theorem c7_saved_video_mp4v_20fps (cfg : Config) (m : DetModel) (f : Frame)
    (fs : List Frame) (path : String) :
    saveBlock "Yes" path (f :: fs) =
      some (Action.openWriter path "mp4v" 20 f.width f.height ::
        ((f :: fs).map Action.writeFrame ++
          [Action.releaseWriter, Action.success path])) ∧
    webcamHandler cfg m true ((f :: fs).map some) "Yes" path =
      some ((webcamLoop cfg m ((f :: fs).map some)).2 ++
        Action.releaseCapture ::
          Action.openWriter path "mp4v" 20 f.width f.height ::
          ((f :: fs).map Action.writeFrame ++
            [Action.releaseWriter, Action.success path])) ∧
    ipCameraHandler cfg m true "rtsp://cam" ((f :: fs).map some) "Yes" path =
      some ((ipCameraLoop cfg m ((f :: fs).map some)).2 ++
        Action.releaseCapture ::
          Action.openWriter path "mp4v" 20 f.width f.height ::
          ((f :: fs).map Action.writeFrame ++
            [Action.releaseWriter, Action.success path])) := by
  have hw : (webcamLoop cfg m ((f :: fs).map some)).1 = f :: fs := by
    rw [webcamLoop_frames, takeWhileSome_map_some]
  have hi : (ipCameraLoop cfg m ((f :: fs).map some)).1 = f :: fs := by
    rw [ipCameraLoop_frames, takeWhileSome_map_some]
  refine ⟨saveBlock_cons_yes path f fs, ?_, ?_⟩
  · have hunfold : webcamHandler cfg m true ((f :: fs).map some) "Yes" path =
        (saveBlock "Yes" path (webcamLoop cfg m ((f :: fs).map some)).1).map
          (fun sv => (webcamLoop cfg m ((f :: fs).map some)).2 ++
            Action.releaseCapture :: sv) := rfl
    rw [hunfold, hw, saveBlock_cons_yes]
    rfl
  · have hunfold : ipCameraHandler cfg m true "rtsp://cam"
        ((f :: fs).map some) "Yes" path =
        (saveBlock "Yes" path (ipCameraLoop cfg m ((f :: fs).map some)).1).map
          (fun sv => (ipCameraLoop cfg m ((f :: fs).map some)).2 ++
            Action.releaseCapture :: sv) := rfl
    rw [hunfold, hi, saveBlock_cons_yes]
    rfl

/-- Claim C9: in the webcam and IP-camera loops the displayed detection
count is at most `MAX_BOXES_TO_DRAW`, because the label list is sliced to
the first `MAX_BOXES_TO_DRAW` detections — whatever list of detections the
detector returns. -/
theorem c9_detection_count_at_most_max (cfg : Config) (m : DetModel)
    (evs : List (Option Frame)) (dets : List Box) (c : Nat)
    (ls : List String)
    (h : Action.frameInfo c ls ∈ (webcamLoop cfg m evs).2 ∨
      Action.frameInfo c ls ∈ (ipCameraLoop cfg m evs).2) :
    c ≤ cfg.MAX_BOXES_TO_DRAW ∧
    (detection_text m dets cfg.MAX_BOXES_TO_DRAW).length ≤
      cfg.MAX_BOXES_TO_DRAW := by
  refine ⟨?_, detection_text_length_le m dets _⟩
  rcases h with h | h
  · exact webcamLoop_frameInfo_bound cfg m evs c ls h
  · exact ipCameraLoop_frameInfo_bound cfg m evs c ls h

/-- Witness for C9 at a concrete one-frame webcam run. -/
theorem c9_detection_count_at_most_max_witness :
    (1 : Nat) ≤ cfg0.MAX_BOXES_TO_DRAW ∧
    (detection_text model0 [box0] cfg0.MAX_BOXES_TO_DRAW).length ≤
      cfg0.MAX_BOXES_TO_DRAW :=
  c9_detection_count_at_most_max cfg0 model0 [some frame0] [box0] 1 ["Gun"]
    (Or.inl (by decide))

end WeaponDetection
